import Mathlib

/-!
Shallow embedding of `FNdiMediaPlayer` (Source/NdiMedia/Private/Player/NdiMediaPlayer.cpp).

The player's fields become a `PlayerState` record; each member function becomes a
Lean function from the state (plus the inputs the surrounding engine or the NDI
transport would supply) to the new state together with the ordered list of
externally observable actions it performs (sink hook calls, media-event
broadcasts, outbound transport metadata, and the moment a sink binding is
recorded).  The NDI transport itself is external: its answers (receiver-creation
success, connection count, captured frames) are passed in as arguments.
-/

namespace NdiMedia

/-- `EMediaState` values used by the player (Closed, Preparing, Playing, Paused). -/
inductive EMediaState where
  | Closed
  | Preparing
  | Playing
  | Paused
deriving DecidableEq

/-- `EMediaEvent` values broadcast through `MediaEvent.Broadcast`. -/
inductive EMediaEvent where
  | TracksChanged
  | MediaOpened
  | MediaClosed
  | PlaybackResumed
  | PlaybackSuspended
deriving DecidableEq

/-- `EMediaTrackType`; `Caption`, `Script` and `Text` stand for the kinds the
player's switch statements send to their default branch. -/
inductive EMediaTrackType where
  | Audio
  | Caption
  | Metadata
  | Script
  | Text
  | Video
deriving DecidableEq

/-- `EMediaTextureSinkFormat` values the player uses. -/
inductive EMediaTextureSinkFormat where
  | CharBGRA
  | CharUYVY
deriving DecidableEq

/-- `INDEX_NONE` from Unreal (`-1`). -/
def INDEX_NONE : Int := -1

/-- An external `IMediaAudioSink`.  `id` models the object's identity (the code
compares sink pointers); `channels` and `sampleRate` are what
`GetAudioSinkChannels` / `GetAudioSinkSampleRate` report; `initOk` is the result
this sink returns from `InitializeAudioSink` (a conforming sink updates its
reported values on a successful initialize). -/
structure AudioSinkState where
  id : Nat
  channels : Int
  sampleRate : Int
  initOk : Bool
deriving DecidableEq

/-- An external `IMediaTextureSink`; `fmt` and `dim` are what
`GetTextureSinkFormat` / `GetTextureSinkDimensions` report. -/
structure VideoSinkState where
  id : Nat
  fmt : EMediaTextureSinkFormat
  dim : Int × Int
  initOk : Bool
deriving DecidableEq

/-- An external `IMediaBinarySink` (identity only; its hooks take no format). -/
structure MetaSinkState where
  id : Nat
deriving DecidableEq

/-- Audio fields appended to the `<audio_format ... />` hint in `Open`
(payload text abstracted to its field structure). -/
inductive AudioFmtField where
  | no_channels (v : Int)
  | sample_rate (v : Int)
deriving DecidableEq

/-- Video fields appended to the `<video_format ... />` hint in `Open`. -/
inductive VideoFmtField where
  | frame_rate_d (v : Int)
  | frame_rate_n (v : Int)
  | progressive (s : String)
  | yres (v : Int)
  | xres (v : Int)
deriving DecidableEq

/-- One externally observable action of the player, in program order. -/
inductive Obs where
  | broadcast (e : EMediaEvent)
  | audioInit (channels sampleRate : Int)
  | audioPlay (bytes : Nat) (timecode : Int)
  | audioPause
  | audioResume
  | audioFlush
  | audioShutdown
  | videoInit (dim bufferDim : Int × Int) (fmt : EMediaTextureSinkFormat)
  | videoUpdateBuffer (stride : Int)
  | videoDisplay (timecode : Int)
  | videoShutdown
  | metaInit
  | metaProcess (length : Int) (timecode : Int)
  | metaShutdown
  | recordAudioSink (id : Option Nat)
  | recordVideoSink (id : Option Nat)
  | recordMetaSink (id : Option Nat)
  | sendProductMeta
  | sendFormatMeta (audio : List AudioFmtField) (video : List VideoFmtField)
  | sendCustomMeta (payload : String)
deriving DecidableEq

/-- The fields of `FNdiMediaPlayer`.  `receiver` models
`ReceiverInstance != nullptr`; `samplerReceiver` models whether the
`FNdiMediaAudioSampler`'s receiver instance is non-null (the audio sampling
activity's enablement). -/
structure PlayerState where
  receiver : Bool
  currentState : EMediaState
  currentUrl : String
  paused : Bool
  audioSink : Option AudioSinkState
  videoSink : Option VideoSinkState
  metaSink : Option MetaSinkState
  selectedAudioTrack : Int
  selectedMetadataTrack : Int
  selectedVideoTrack : Int
  lastAudioChannels : Int
  lastAudioSampleRate : Int
  lastBufferDim : Int × Int
  lastVideoDim : Int × Int
  lastVideoFrameRate : Int
  videoSinkFormat : EMediaTextureSinkFormat
  samplerReceiver : Bool
deriving DecidableEq

/-- The constructor `FNdiMediaPlayer::FNdiMediaPlayer`. -/
def initState : PlayerState where
  receiver := false
  currentState := EMediaState.Closed
  currentUrl := ""
  paused := false
  audioSink := none
  videoSink := none
  metaSink := none
  selectedAudioTrack := INDEX_NONE
  selectedMetadataTrack := INDEX_NONE
  selectedVideoTrack := INDEX_NONE
  lastAudioChannels := 0
  lastAudioSampleRate := 0
  lastBufferDim := (0, 0)
  lastVideoDim := (0, 0)
  lastVideoFrameRate := 0
  videoSinkFormat := EMediaTextureSinkFormat.CharUYVY
  samplerReceiver := false

/-- `FNdiMediaPlayer::UpdateAudioSampler`: the sampler receives the player's
receiver instance when `!Paused && (AudioSink != nullptr) && (SelectedAudioTrack == 0)`,
and null otherwise. -/
def updateAudioSampler (s : PlayerState) : PlayerState :=
  let sampleAudio := !s.paused && s.audioSink.isSome && (s.selectedAudioTrack == 0)
  { s with samplerReceiver := sampleAudio && s.receiver }

/-- `FNdiMediaPlayer::Close`. -/
def close (s : PlayerState) : PlayerState × List Obs :=
  let s1 : PlayerState :=
    { s with
      receiver := false
      currentState := EMediaState.Closed
      currentUrl := ""
      lastAudioChannels := 0
      lastAudioSampleRate := 0
      lastBufferDim := (0, 0)
      lastVideoDim := (0, 0)
      lastVideoFrameRate := 0
      selectedAudioTrack := INDEX_NONE
      selectedMetadataTrack := INDEX_NONE
      selectedVideoTrack := INDEX_NONE }
  let s2 := updateAudioSampler s1
  (s2, [Obs.broadcast EMediaEvent.TracksChanged, Obs.broadcast EMediaEvent.MediaClosed])

/-- `FNdiMediaPlayer::SetRate` (rates are exact values 0.0 / 1.0). -/
def setRate (s : PlayerState) (rate : Rat) : PlayerState × Bool :=
  if rate = 0 then ({ s with paused := true }, true)
  else if rate = 1 then ({ s with paused := false }, true)
  else (s, false)

/-- `FNdiMediaPlayer::GetRate`. -/
def getRate (s : PlayerState) : Rat :=
  if s.currentState = EMediaState.Playing then 1 else 0

/-- `FNdiMediaPlayer::SelectTrack`. -/
def selectTrack (s : PlayerState) (t : EMediaTrackType) (i : Int) : PlayerState × Bool :=
  if i ≠ INDEX_NONE ∧ i ≠ 0 then (s, false)
  else if t = EMediaTrackType.Audio then
    (updateAudioSampler { s with selectedAudioTrack := i }, true)
  else if t = EMediaTrackType.Metadata then
    ({ s with selectedMetadataTrack := i }, true)
  else if t = EMediaTrackType.Video then
    ({ s with selectedVideoTrack := i }, true)
  else (s, false)

/-- `FNdiMediaPlayer::GetSelectedTrack`. -/
def getSelectedTrack (s : PlayerState) (t : EMediaTrackType) : Int :=
  if s.receiver = false then INDEX_NONE
  else
    match t with
    | EMediaTrackType.Audio => 0
    | EMediaTrackType.Metadata => 0
    | EMediaTrackType.Video => 0
    | _ => INDEX_NONE

/-! ### Sink binding (`IMediaOutput` interface) -/

/-- Identity of an optional audio sink (the code compares sink pointers). -/
def sinkIdA (k : Option AudioSinkState) : Option Nat := Option.map AudioSinkState.id k

/-- Identity of an optional video sink. -/
def sinkIdV (k : Option VideoSinkState) : Option Nat := Option.map VideoSinkState.id k

/-- Identity of an optional metadata sink. -/
def sinkIdM (k : Option MetaSinkState) : Option Nat := Option.map MetaSinkState.id k

/-- `FNdiMediaPlayer::SetAudioSink`: same sink is a no-op; otherwise shut down
the previous sink, initialize the new one with the cached audio format, record
the binding, then `UpdateAudioSampler`. -/
def setAudioSink (s : PlayerState) (snk : Option AudioSinkState) : PlayerState × List Obs :=
  if sinkIdA snk = sinkIdA s.audioSink then (s, [])
  else
    let shutObs := if s.audioSink.isSome then [Obs.audioShutdown] else []
    match snk with
    | none =>
      (updateAudioSampler { s with audioSink := none },
       shutObs ++ [Obs.recordAudioSink none])
    | some k =>
      let kAfter :=
        if k.initOk then
          { k with channels := s.lastAudioChannels, sampleRate := s.lastAudioSampleRate }
        else k
      (updateAudioSampler { s with audioSink := some kAfter },
       shutObs ++ [Obs.audioInit s.lastAudioChannels s.lastAudioSampleRate,
                   Obs.recordAudioSink (some k.id)])

/-- `FNdiMediaPlayer::SetMetadataSink`: shutdown old, initialize new, then
record the binding. -/
def setMetadataSink (s : PlayerState) (snk : Option MetaSinkState) : PlayerState × List Obs :=
  if sinkIdM snk = sinkIdM s.metaSink then (s, [])
  else
    let shutObs := if s.metaSink.isSome then [Obs.metaShutdown] else []
    let initObs := if snk.isSome then [Obs.metaInit] else []
    ({ s with metaSink := snk }, shutObs ++ initObs ++ [Obs.recordMetaSink (sinkIdM snk)])

/-- `FNdiMediaPlayer::SetVideoSink`: shutdown old, record the binding
(`VideoSink = Sink;`), and only then initialize the new sink with the cached
video format — the source assigns the member before calling
`InitializeTextureSink`. -/
def setVideoSink (s : PlayerState) (snk : Option VideoSinkState) : PlayerState × List Obs :=
  if sinkIdV snk = sinkIdV s.videoSink then (s, [])
  else
    let shutObs := if s.videoSink.isSome then [Obs.videoShutdown] else []
    match snk with
    | none => ({ s with videoSink := none }, shutObs ++ [Obs.recordVideoSink none])
    | some k =>
      let kAfter :=
        if k.initOk then { k with fmt := s.videoSinkFormat, dim := s.lastVideoDim } else k
      ({ s with videoSink := some kAfter },
       shutObs ++ [Obs.recordVideoSink (some k.id),
                   Obs.videoInit s.lastVideoDim s.lastBufferDim s.videoSinkFormat])

/-! ### Frame dispatch -/

/-- An `NDIlib_audio_frame_v2_t` as the dispatch path reads it. -/
structure AudioFrame where
  noSamples : Int
  noChannels : Int
  sampleRate : Int
  timecode : Int
deriving DecidableEq

/-- An `NDIlib_video_frame_v2_t` as the dispatch path reads it. -/
structure VideoFrame where
  xres : Int
  yres : Int
  lineStride : Int
  timecode : Int
deriving DecidableEq

/-- `FNdiMediaPlayer::ProcessAudioFrame`: update the format cache, stop without
a sink, reinitialize the sink on a channel-count or sample-rate mismatch
(dropping the frame when that fails), then convert to interleaved 16-bit
samples (`uint32 TotalSamples = no_samples * no_channels`) and forward
`TotalSamples * sizeof(int16)` bytes with the frame's timecode. -/
def processAudioFrame (s : PlayerState) (f : AudioFrame) : PlayerState × List Obs :=
  let s := { s with lastAudioChannels := f.noChannels, lastAudioSampleRate := f.sampleRate }
  match s.audioSink with
  | none => (s, [])
  | some snk =>
    let totalSamples : Nat := ((f.noSamples * f.noChannels) % (2 ^ 32 : Int)).toNat
    if snk.channels ≠ f.noChannels ∨ snk.sampleRate ≠ f.sampleRate then
      if snk.initOk then
        let snk1 := { snk with channels := f.noChannels, sampleRate := f.sampleRate }
        ({ s with audioSink := some snk1 },
         [Obs.audioInit f.noChannels f.sampleRate,
          Obs.audioPlay (totalSamples * 2) f.timecode])
      else (s, [Obs.audioInit f.noChannels f.sampleRate])
    else (s, [Obs.audioPlay (totalSamples * 2) f.timecode])

/-- `FNdiMediaPlayer::ProcessVideoFrame`: recompute the buffer and display
dimensions from the frame's stride and resolution, stop without a sink,
reinitialize the sink when its reported format or dimensions differ (dropping
the frame when that fails), then forward the buffer and display it with the
frame's timecode.  Strides are nonnegative byte counts, so `/ 4` agrees with
the C integer division. -/
def processVideoFrame (s : PlayerState) (f : VideoFrame) : PlayerState × List Obs :=
  let s := { s with
    lastBufferDim := (f.lineStride / 4, f.yres)
    lastVideoDim := (f.xres, f.yres) }
  match s.videoSink with
  | none => (s, [])
  | some snk =>
    if snk.fmt ≠ s.videoSinkFormat ∨ snk.dim ≠ s.lastVideoDim then
      if snk.initOk then
        let snk1 := { snk with fmt := s.videoSinkFormat, dim := s.lastVideoDim }
        ({ s with videoSink := some snk1 },
         [Obs.videoInit s.lastVideoDim s.lastBufferDim s.videoSinkFormat,
          Obs.videoUpdateBuffer f.lineStride, Obs.videoDisplay f.timecode])
      else (s, [Obs.videoInit s.lastVideoDim s.lastBufferDim s.videoSinkFormat])
    else (s, [Obs.videoUpdateBuffer f.lineStride, Obs.videoDisplay f.timecode])

/-- Outcome of one non-blocking `NDIlib_recv_capture_v2` metadata poll. -/
inductive MetaCapture where
  | err
  | noFrame
  | frame (length : Int) (timecode : Int)
deriving DecidableEq

/-- `FNdiMediaPlayer::CaptureMetadataFrame`: on an error or a non-metadata
result do nothing; on a metadata frame forward payload length and timecode
(with zero duration) to the bound metadata sink. -/
def captureMetadataFrame (cap : MetaCapture) : List Obs :=
  match cap with
  | MetaCapture.err => []
  | MetaCapture.noFrame => []
  | MetaCapture.frame len tc => [Obs.metaProcess len tc]

/-- The target state computed by `TickPlayer` (line 438):
`Paused ? Paused : (IsConnected ? Playing : Preparing)`. -/
def tickTarget (s : PlayerState) (connections : Nat) : EMediaState :=
  if s.paused then EMediaState.Paused
  else if connections > 0 then EMediaState.Playing
  else EMediaState.Preparing

/-- `FNdiMediaPlayer::TickPlayer`: no-op without a receiver; otherwise compute
the target state and, when it differs from the current state *and an audio sink
is bound*, adopt it, update the sampler, and broadcast `PlaybackResumed`
(resuming the audio sink) when the new state is `Playing`, else
`PlaybackSuspended` (pausing then flushing the audio sink).  Finally, when a
metadata sink is bound, perform one metadata capture attempt. -/
def tickPlayer (s : PlayerState) (connections : Nat) (cap : MetaCapture) :
    PlayerState × List Obs :=
  if s.receiver = false then (s, [])
  else
    let target := tickTarget s connections
    let stepped : PlayerState × List Obs :=
      if target ≠ s.currentState ∧ s.audioSink.isSome then
        let s1 := updateAudioSampler { s with currentState := target }
        if target = EMediaState.Playing then
          (s1, [Obs.broadcast EMediaEvent.PlaybackResumed, Obs.audioResume])
        else
          (s1, [Obs.broadcast EMediaEvent.PlaybackSuspended, Obs.audioPause, Obs.audioFlush])
      else (s, [])
    let metaObs := if stepped.1.metaSink.isSome then captureMetadataFrame cap else []
    (stepped.1, stepped.2 ++ metaObs)

/-- `FNdiMediaPlayer::TickVideo`: capture a video frame unless paused. -/
def tickVideoRuns (s : PlayerState) : Bool := !s.paused

/-! ### Open -/

/-- The option keys the player looks up (`NdiMedia::...Option` names). -/
inductive OptKey where
  | ColorFormat
  | Bandwidth
  | AudioChannels
  | AudioSampleRate
  | FrameRateN
  | FrameRateD
  | Progressive
  | VideoHeight
  | VideoWidth
deriving DecidableEq

/-- The external `IMediaOptions` object: a key/default-valued lookup. -/
structure MediaOptions where
  getInt : OptKey → Int → Int
  getString : OptKey → String → String

/-- The `UNdiMediaSettings` defaults consulted at `Open` time plus the platform
computer name used for the `localhost` alias substitution. -/
structure NdiSettings where
  customMetadata : String
  computerName : String

/-- `NDIlib_recv_color_format_e_BGRX_BGRA` (value from the NDI SDK header,
an external dependency). -/
def NDIlib_recv_color_format_e_BGRX_BGRA : Int := 0

/-- `NDIlib_recv_color_format_e_UYVY_BGRA` (value from the NDI SDK header). -/
def NDIlib_recv_color_format_e_UYVY_BGRA : Int := 1

/-- `NDIlib_recv_bandwidth_highest` (value from the NDI SDK header). -/
def NDIlib_recv_bandwidth_highest : Int := 100

/-- `FString::StartsWith` (case sensitivity aside: the player's locators and
tokens are compared literally), as a structurally recursive list check. -/
def strStartsWith (s p : String) : Bool := List.isPrefixOf p.data s.data

/-- `FString::RightChop n` keeps everything after the first `n` characters. -/
def strDrop (s : String) (n : Nat) : String := String.mk (s.data.drop n)

/-- `FString::Find` on a single-character needle, reduced to containment. -/
def strContainsChar (s : String) (c : Char) : Bool := s.data.contains c

/-- `FString::Trim` followed by `FString::TrimTrailing`: strip leading and
trailing whitespace. -/
def strTrimBoth (s : String) : String :=
  String.mk (((s.data.dropWhile Char.isWhitespace).reverse.dropWhile Char.isWhitespace).reverse)

/-- The `NDIlib_source_t` descriptor built in `Open`. -/
inductive NdiSource where
  | byAddress (addr : String)
  | byName (name : String)
deriving DecidableEq

/-- The source-descriptor branch of `Open`: a locator containing a port
separator is an address, otherwise a discoverable name with the `localhost`
prefix token replaced by the local machine's name. -/
def resolveSource (settings : NdiSettings) (sourceStr : String) : NdiSource :=
  if strContainsChar sourceStr ':' then NdiSource.byAddress sourceStr
  else
    let sourceStr :=
      if strStartsWith sourceStr "localhost " then
        String.replace sourceStr "localhost" settings.computerName
      else sourceStr
    NdiSource.byName sourceStr

/-- The `<audio_format ... />` fields built in `Open` (lines 343-355). -/
def buildAudioFormat (opts : MediaOptions) : List AudioFmtField :=
  (let c := opts.getInt OptKey.AudioChannels 0
   if c > 0 then [AudioFmtField.no_channels c] else []) ++
  (let r := opts.getInt OptKey.AudioSampleRate 0
   if r > 0 then [AudioFmtField.sample_rate r] else [])

/-- The `<video_format ... />` fields built in `Open` (lines 357-390).  The
source reads `NdiMedia::FrameRateDOption` for *both* the `frame_rate_d` and the
`frame_rate_n` hint (line 364). -/
def buildVideoFormat (opts : MediaOptions) : List VideoFmtField :=
  (let d := opts.getInt OptKey.FrameRateD 0
   if d > 0 then [VideoFmtField.frame_rate_d d] else []) ++
  (let n := opts.getInt OptKey.FrameRateD 0
   if n > 0 then [VideoFmtField.frame_rate_n n] else []) ++
  (let p := opts.getString OptKey.Progressive ""
   if p ≠ "" then [VideoFmtField.progressive p] else []) ++
  (let h := opts.getInt OptKey.VideoHeight 0
   if h > 0 then [VideoFmtField.yres h] else []) ++
  (let w := opts.getInt OptKey.VideoWidth 0
   if w > 0 then [VideoFmtField.xres w] else [])

/-- `FNdiMediaPlayer::Open(Url, Options)`.  `createOk` is the outcome of the
external `NDIlib_recv_create_v2` call.  Returns the new state, the observable
actions in program order, and the boolean result. -/
def openUrl (settings : NdiSettings) (s : PlayerState) (url : String)
    (opts : MediaOptions) (createOk : Bool) : PlayerState × List Obs × Bool :=
  let closed := close s
  let s := closed.1
  let closeObs := closed.2
  if url = "" ∨ strStartsWith url "ndi://" = false then (s, closeObs, false)
  else
    let sourceStr := strDrop url 6
    let colorFormat := opts.getInt OptKey.ColorFormat 0
    let vsf :=
      if colorFormat = NDIlib_recv_color_format_e_BGRX_BGRA then
        EMediaTextureSinkFormat.CharBGRA
      else if colorFormat = NDIlib_recv_color_format_e_UYVY_BGRA then
        EMediaTextureSinkFormat.CharUYVY
      else EMediaTextureSinkFormat.CharUYVY
    let s := { s with videoSinkFormat := vsf }
    let _bandwidth := opts.getInt OptKey.Bandwidth NDIlib_recv_bandwidth_highest
    let _src := resolveSource settings sourceStr
    if createOk = false then (s, closeObs, false)
    else
      let s := { s with receiver := true }
      let audioFmt := buildAudioFormat opts
      let videoFmt := buildVideoFormat opts
      let fmtObs :=
        if audioFmt ≠ [] ∨ videoFmt ≠ [] then [Obs.sendFormatMeta audioFmt videoFmt] else []
      let custom := strTrimBoth settings.customMetadata
      let customObs := if custom ≠ "" then [Obs.sendCustomMeta custom] else []
      let s := { s with currentUrl := url }
      (s,
       closeObs ++ [Obs.sendProductMeta] ++ fmtObs ++ customObs ++
         [Obs.broadcast EMediaEvent.TracksChanged, Obs.broadcast EMediaEvent.MediaOpened],
       true)

/-! ### Observation helpers -/

/-- The media events broadcast within an observation trace, in order. -/
def broadcastsOf (l : List Obs) : List EMediaEvent :=
  l.filterMap fun o =>
    match o with
    | Obs.broadcast e => some e
    | _ => none

/-- Recognize an audio-sink `PlayAudioSink` call. -/
def isAudioPlay (o : Obs) : Bool :=
  match o with
  | Obs.audioPlay _ _ => true
  | _ => false

/-- Recognize an audio-sink `InitializeAudioSink` call. -/
def isAudioInit (o : Obs) : Bool :=
  match o with
  | Obs.audioInit _ _ => true
  | _ => false

/-- Recognize the recording of an audio-sink binding. -/
def isRecAudio (o : Obs) : Bool :=
  match o with
  | Obs.recordAudioSink _ => true
  | _ => false

/-- Recognize a video-sink `InitializeTextureSink` call. -/
def isVideoInit (o : Obs) : Bool :=
  match o with
  | Obs.videoInit _ _ _ => true
  | _ => false

/-- Recognize a video-sink `UpdateTextureSinkBuffer` call. -/
def isVideoUpdate (o : Obs) : Bool :=
  match o with
  | Obs.videoUpdateBuffer _ => true
  | _ => false

/-- Recognize a video-sink `DisplayTextureSinkBuffer` call. -/
def isVideoDisplay (o : Obs) : Bool :=
  match o with
  | Obs.videoDisplay _ => true
  | _ => false

/-- Recognize the recording of a video-sink binding. -/
def isRecVideo (o : Obs) : Bool :=
  match o with
  | Obs.recordVideoSink _ => true
  | _ => false

/-- Recognize a metadata-sink `InitializeBinarySink` call. -/
def isMetaInit (o : Obs) : Bool :=
  match o with
  | Obs.metaInit => true
  | _ => false

/-- Recognize the recording of a metadata-sink binding. -/
def isRecMeta (o : Obs) : Bool :=
  match o with
  | Obs.recordMetaSink _ => true
  | _ => false

/-- Number of video-sink initialize calls in a trace. -/
def countVideoInit (l : List Obs) : Nat := (l.filter isVideoInit).length

/-- Number of video-sink buffer-update calls in a trace. -/
def countVideoUpdate (l : List Obs) : Nat := (l.filter isVideoUpdate).length

/-- Number of video-sink display calls in a trace. -/
def countVideoDisplay (l : List Obs) : Nat := (l.filter isVideoDisplay).length

/-! ### The audio-sampling enablement rule and the player's operations -/

/-- The audio sampling activity is enabled exactly when the player is not
paused, an audio sink is bound, audio track 0 is selected, and — because the
sampler is handed `ReceiverInstance` itself — a receiver is live. -/
def samplerInv (s : PlayerState) : Prop :=
  s.samplerReceiver =
    (!s.paused && s.audioSink.isSome && (s.selectedAudioTrack == 0) && s.receiver)

instance (s : PlayerState) : Decidable (samplerInv s) := by
  unfold samplerInv; infer_instance

/-- One public operation on the player, for quantifying over operation
sequences. -/
inductive PlayerOp where
  | closeOp
  | setRateOp (r : Rat)
  | selectTrackOp (t : EMediaTrackType) (i : Int)
  | setAudioSinkOp (k : Option AudioSinkState)
  | setVideoSinkOp (k : Option VideoSinkState)
  | setMetadataSinkOp (k : Option MetaSinkState)
  | tickPlayerOp (connections : Nat) (cap : MetaCapture)
  | openOp (settings : NdiSettings) (url : String) (opts : MediaOptions) (createOk : Bool)
  | processAudioOp (f : AudioFrame)
  | processVideoOp (f : VideoFrame)

/-- The state reached by one operation. -/
def applyOp (s : PlayerState) : PlayerOp → PlayerState
  | PlayerOp.closeOp => (close s).1
  | PlayerOp.setRateOp r => (setRate s r).1
  | PlayerOp.selectTrackOp t i => (selectTrack s t i).1
  | PlayerOp.setAudioSinkOp k => (setAudioSink s k).1
  | PlayerOp.setVideoSinkOp k => (setVideoSink s k).1
  | PlayerOp.setMetadataSinkOp k => (setMetadataSink s k).1
  | PlayerOp.tickPlayerOp c cap => (tickPlayer s c cap).1
  | PlayerOp.openOp st url opts ok => (openUrl st s url opts ok).1
  | PlayerOp.processAudioOp f => (processAudioFrame s f).1
  | PlayerOp.processVideoOp f => (processVideoFrame s f).1

/-! ### Concrete inputs used by counterexamples and witnesses -/

/-- An options object answering every lookup with its default. -/
def defaultOpts : MediaOptions := ⟨fun _ d => d, fun _ d => d⟩

/-- Settings with no custom metadata payload. -/
def defaultSettings : NdiSettings := ⟨"", "MACHINE"⟩

/-- A healthy audio sink (every initialize call succeeds). -/
def exAudioSink : AudioSinkState := ⟨1, 0, 0, true⟩

/-- A player with a live receiver and no audio sink, currently `Preparing`. -/
def c1state : PlayerState :=
  { initState with receiver := true, currentState := EMediaState.Preparing }

/-- A player with a live receiver and an audio sink, currently `Preparing`. -/
def c1wstate : PlayerState :=
  { initState with
    receiver := true
    currentState := EMediaState.Preparing
    audioSink := some exAudioSink }

/-- A closed player that bound an audio sink and then selected audio track 0:
the enablement rule's three conjuncts hold, yet no receiver exists. -/
def c4state : PlayerState :=
  (selectTrack (setAudioSink initState (some exAudioSink)).1 EMediaTrackType.Audio 0).1

/-- `c4state` after a successful `Open`, rebinding the audio sink and selecting
audio track 0 again (reaching an enabled sampler), then `SetRate(0.0)`. -/
def c4state2 : PlayerState :=
  (setRate
    (selectTrack
      (setAudioSink
        (openUrl defaultSettings initState "ndi://src" defaultOpts true).1
        (some exAudioSink)).1
      EMediaTrackType.Audio 0).1
    0).1

/-- An audio sink reporting 2 channels at 48000 Hz. -/
def c5sink : AudioSinkState := ⟨5, 2, 48000, true⟩

/-- A player with `c5sink` bound. -/
def c5state : PlayerState := { initState with audioSink := some c5sink }

/-- An audio frame with 4 samples and 2 channels. -/
def c5frame : AudioFrame := ⟨4, 2, 48000, 99⟩

/-- A video sink whose initialize hook always fails. -/
def c6sink : VideoSinkState := ⟨2, EMediaTextureSinkFormat.CharUYVY, (0, 0), false⟩

/-- A player with the failing video sink bound. -/
def c6state : PlayerState := { initState with videoSink := some c6sink }

/-- A healthy video sink reporting zero dimensions. -/
def c6wsink : VideoSinkState := ⟨6, EMediaTextureSinkFormat.CharUYVY, (0, 0), true⟩

/-- A player with the healthy video sink bound. -/
def c6wstate : PlayerState := { initState with videoSink := some c6wsink }

/-- A 100x50 video frame with a 400-byte stride. -/
def c6frame : VideoFrame := ⟨100, 50, 400, 7⟩

/-- A bound video sink about to be replaced. -/
def c7old : VideoSinkState := ⟨3, EMediaTextureSinkFormat.CharUYVY, (0, 0), true⟩

/-- The replacement video sink. -/
def c7new : VideoSinkState := ⟨4, EMediaTextureSinkFormat.CharUYVY, (0, 0), true⟩

/-- A player with `c7old` bound as the video sink. -/
def c7state : PlayerState := { initState with videoSink := some c7old }

/-- A metadata sink for the C7 witness. -/
def c7meta : MetaSinkState := ⟨9⟩

/-- Options supplying a frame-rate numerator of 30000 and a denominator
of 1001. -/
def c9opts : MediaOptions where
  getInt := fun k d =>
    match k with
    | OptKey.FrameRateN => 30000
    | OptKey.FrameRateD => 1001
    | _ => d
  getString := fun _ d => d

/-! ## Theorems -/

/-- `UpdateAudioSampler` establishes the enablement rule. -/
theorem samplerInv_updateAudioSampler (s : PlayerState) : samplerInv (updateAudioSampler s) := by
  simp [samplerInv, updateAudioSampler, Bool.and_assoc]

/-- `Close` leaves the enablement rule holding. -/
theorem samplerInv_close (s : PlayerState) : samplerInv (close s).1 :=
  samplerInv_updateAudioSampler _

/-- C3: for every locator that is empty or does not start with the `ndi://`
scheme prefix, `Open` returns failure, leaves the playback state `Closed`, and
creates no receiver. -/
theorem c3_open_rejects_bad_locator (settings : NdiSettings) (s : PlayerState)
    (url : String) (opts : MediaOptions) (createOk : Bool)
    (h : url = "" ∨ strStartsWith url "ndi://" = false) :
    (openUrl settings s url opts createOk).2.2 = false ∧
    (openUrl settings s url opts createOk).1.currentState = EMediaState.Closed ∧
    (openUrl settings s url opts createOk).1.receiver = false := by
  simp only [openUrl]
  rw [if_pos h]
  exact ⟨rfl, rfl, rfl⟩

/-- Witness for C3 at the locator `rtsp://cam`. -/
theorem c3_witness :
    (openUrl defaultSettings initState "rtsp://cam" defaultOpts true).2.2 = false ∧
    (openUrl defaultSettings initState "rtsp://cam" defaultOpts true).1.currentState =
      EMediaState.Closed ∧
    (openUrl defaultSettings initState "rtsp://cam" defaultOpts true).1.receiver = false :=
  c3_open_rejects_bad_locator defaultSettings initState "rtsp://cam" defaultOpts true
    (Or.inr (by decide))

/-- C8 counterexample: on an already-closed (freshly constructed) player,
`Close` still broadcasts TracksChanged and MediaClosed, so a second `Close` is
not free of (duplicate) notifications. -/
theorem c8_counterexample :
    initState.currentState = EMediaState.Closed ∧
    broadcastsOf (close initState).2 = [EMediaEvent.TracksChanged, EMediaEvent.MediaClosed] ∧
    (close initState).2 ≠ [] := by decide

/-- C8 (amended): `Close` on an already-closed player does not crash and leaves
the player state unchanged (closing is idempotent on the state), but it still
broadcasts TracksChanged and MediaClosed on every call. -/
theorem c8_close_on_closed (s : PlayerState) :
    (close (close s).1).1 = (close s).1 ∧
    (close (close s).1).2 =
      [Obs.broadcast EMediaEvent.TracksChanged, Obs.broadcast EMediaEvent.MediaClosed] := by
  constructor
  · simp [close, updateAudioSampler, INDEX_NONE]
  · rfl

/-- C9: the combined format-hint payload of a successful `Open` fills
`frame_rate_n` from the *denominator* option key — with numerator 30000 and
denominator 1001 supplied, the payload carries `frame_rate_n = 1001`, not the
numerator key's 30000. -/
theorem c9_frame_rate_n_from_denominator_key :
    buildVideoFormat c9opts =
      [VideoFmtField.frame_rate_d 1001, VideoFmtField.frame_rate_n 1001] ∧
    Obs.sendFormatMeta [] [VideoFmtField.frame_rate_d 1001, VideoFmtField.frame_rate_n 1001]
      ∈ (openUrl defaultSettings initState "ndi://src" c9opts true).2.1 ∧
    c9opts.getInt OptKey.FrameRateN 0 = 30000 := by decide

/-- C10: with a live receiver, `GetSelectedTrack` answers track 0 for the
audio, video and metadata kinds regardless of the recorded selection (even
right after a successful `SelectTrack(Audio, INDEX_NONE)`), and without a
receiver it answers `INDEX_NONE` for every kind. -/
theorem c10_get_selected_track (s : PlayerState) (t : EMediaTrackType) :
    (s.receiver = false → getSelectedTrack s t = INDEX_NONE) ∧
    (s.receiver = true →
      (t = EMediaTrackType.Audio ∨ t = EMediaTrackType.Metadata ∨ t = EMediaTrackType.Video) →
      getSelectedTrack s t = 0) ∧
    (selectTrack s EMediaTrackType.Audio INDEX_NONE).2 = true ∧
    ((selectTrack s EMediaTrackType.Audio INDEX_NONE).1.receiver = true →
      getSelectedTrack (selectTrack s EMediaTrackType.Audio INDEX_NONE).1
        EMediaTrackType.Audio = 0) := by
  refine ⟨?_, ?_, ?_, ?_⟩
  · intro h
    simp [getSelectedTrack, h]
  · intro h ht
    rcases ht with ht | ht | ht <;> subst ht <;> simp [getSelectedTrack, h]
  · simp [selectTrack]
  · intro h
    simp only [selectTrack, INDEX_NONE] at h ⊢
    simp only [updateAudioSampler] at h ⊢
    simp_all [getSelectedTrack]

/-- A metadata capture attempt broadcasts no media events. -/
theorem broadcastsOf_captureMetadataFrame (cap : MetaCapture) :
    broadcastsOf (captureMetadataFrame cap) = [] := by
  cases cap <;> rfl

/-- C1 counterexample: with a live receiver, one downstream connection, no
pause flag and no bound audio sink, the target state `Playing` differs from the
current state `Preparing`, yet `TickPlayer` neither updates the current state
nor broadcasts anything — the transition is gated on an audio sink being
bound. -/
theorem c1_counterexample :
    tickTarget c1state 1 = EMediaState.Playing ∧
    c1state.currentState = EMediaState.Preparing ∧
    c1state.audioSink = none ∧
    (tickPlayer c1state 1 MetaCapture.noFrame).1.currentState = EMediaState.Preparing ∧
    broadcastsOf (tickPlayer c1state 1 MetaCapture.noFrame).2 = [] := by decide

/-- C1 (amended): while a receiver exists, `TickPlayer` derives the target
state as Paused if the pause flag is set, else Playing if the connection count
is non-zero, else Preparing; when the target differs from the current state
*and an audio sink is bound*, it adopts the target, recomputes the sampler
enablement, and broadcasts exactly one of PlaybackResumed (when the new state
is Playing, resuming the audio sink) or PlaybackSuspended (when the new state
is not Playing, pausing then flushing the audio sink); when the target equals
the current state or no audio sink is bound, the state is left untouched and
nothing is broadcast. -/
theorem c1_tick_state_machine (s : PlayerState) (conn : Nat) (cap : MetaCapture)
    (hrecv : s.receiver = true) :
    tickTarget s conn =
      (if s.paused then EMediaState.Paused
       else if conn > 0 then EMediaState.Playing else EMediaState.Preparing) ∧
    (tickTarget s conn = s.currentState ∨ s.audioSink.isSome = false →
      (tickPlayer s conn cap).1 = s ∧ broadcastsOf (tickPlayer s conn cap).2 = []) ∧
    (tickTarget s conn ≠ s.currentState → s.audioSink.isSome = true →
      (tickPlayer s conn cap).1.currentState = tickTarget s conn ∧
      samplerInv (tickPlayer s conn cap).1 ∧
      (tickTarget s conn = EMediaState.Playing →
        broadcastsOf (tickPlayer s conn cap).2 = [EMediaEvent.PlaybackResumed] ∧
        (tickPlayer s conn cap).2.take 2 =
          [Obs.broadcast EMediaEvent.PlaybackResumed, Obs.audioResume]) ∧
      (tickTarget s conn ≠ EMediaState.Playing →
        broadcastsOf (tickPlayer s conn cap).2 = [EMediaEvent.PlaybackSuspended] ∧
        (tickPlayer s conn cap).2.take 3 =
          [Obs.broadcast EMediaEvent.PlaybackSuspended, Obs.audioPause, Obs.audioFlush])) := by
  refine ⟨rfl, ?_, ?_⟩
  · intro hor
    have hcond : ¬(tickTarget s conn ≠ s.currentState ∧ s.audioSink.isSome = true) := by
      rcases hor with heq | hns
      · exact fun hc => hc.1 heq
      · intro hc
        rw [hns] at hc
        exact Bool.false_ne_true hc.2
    cases cap <;>
      simp [tickPlayer, hrecv, hcond, captureMetadataFrame, broadcastsOf]
  · intro hne hsink
    by_cases hp : tickTarget s conn = EMediaState.Playing
    · have hne' : ¬(EMediaState.Playing = s.currentState) := fun hc => hne (hp.trans hc)
      refine ⟨?_, ?_, fun _ => ⟨?_, ?_⟩, fun hc => absurd hp hc⟩ <;>
        cases cap <;>
        simp [tickPlayer, hrecv, hne, hne', hsink, hp, updateAudioSampler, broadcastsOf,
          captureMetadataFrame, samplerInv, Bool.and_assoc]
    · refine ⟨?_, ?_, fun hc => absurd hc hp, fun _ => ⟨?_, ?_⟩⟩ <;>
        cases cap <;>
        simp [tickPlayer, hrecv, hne, hsink, hp, updateAudioSampler, broadcastsOf,
          captureMetadataFrame, samplerInv, Bool.and_assoc]

/-- Witness for C1: a connected, unpaused player with an audio sink moves from
Preparing to Playing on a tick. -/
theorem c1_witness :
    (tickPlayer c1wstate 1 MetaCapture.noFrame).1.currentState = EMediaState.Playing ∧
    broadcastsOf (tickPlayer c1wstate 1 MetaCapture.noFrame).2 =
      [EMediaEvent.PlaybackResumed] := by
  have h := c1_tick_state_machine c1wstate 1 MetaCapture.noFrame (by decide)
  have h2 := h.2.2 (by decide) (by decide)
  have h3 := h2.2.2.1 (by decide)
  have ht : tickTarget c1wstate 1 = EMediaState.Playing := by decide
  exact ⟨ht ▸ h2.1, h3.1⟩

/-- C2 counterexample: a successful `Open` call on a fresh player broadcasts
four notifications — the embedded `Close` fires TracksChanged and MediaClosed
before the final TracksChanged and MediaOpened — so not exactly two fire. -/
theorem c2_counterexample :
    (openUrl defaultSettings initState "ndi://src" defaultOpts true).2.2 = true ∧
    broadcastsOf (openUrl defaultSettings initState "ndi://src" defaultOpts true).2.1 =
      [EMediaEvent.TracksChanged, EMediaEvent.MediaClosed,
       EMediaEvent.TracksChanged, EMediaEvent.MediaOpened] ∧
    broadcastsOf (openUrl defaultSettings initState "ndi://src" defaultOpts true).2.1 ≠
      [EMediaEvent.TracksChanged, EMediaEvent.MediaOpened] := by decide

/-- C2 (amended): every successful `Open` broadcasts exactly four
notifications in order — TracksChanged and MediaClosed from the unconditional
initial `Close`, then TracksChanged and MediaOpened at the end — and no
others. -/
theorem c2_open_broadcasts (settings : NdiSettings) (s : PlayerState) (url : String)
    (opts : MediaOptions) (createOk : Bool)
    (h : (openUrl settings s url opts createOk).2.2 = true) :
    broadcastsOf (openUrl settings s url opts createOk).2.1 =
      [EMediaEvent.TracksChanged, EMediaEvent.MediaClosed,
       EMediaEvent.TracksChanged, EMediaEvent.MediaOpened] := by
  simp only [openUrl] at h ⊢
  by_cases hg : url = "" ∨ strStartsWith url "ndi://" = false
  · rw [if_pos hg] at h
    simp at h
  · rw [if_neg hg] at h ⊢
    by_cases hc : createOk = false
    · rw [if_pos hc] at h
      simp at h
    · rw [if_neg hc] at h ⊢
      by_cases hf : buildAudioFormat opts ≠ [] ∨ buildVideoFormat opts ≠ [] <;>
        by_cases hm : strTrimBoth settings.customMetadata ≠ "" <;>
        simp [hf, hm, close, broadcastsOf, List.filterMap_append]

/-- Witness for C2 at a successful open of `ndi://src`. -/
theorem c2_witness :
    broadcastsOf (openUrl defaultSettings initState "ndi://src" defaultOpts true).2.1 =
      [EMediaEvent.TracksChanged, EMediaEvent.MediaClosed,
       EMediaEvent.TracksChanged, EMediaEvent.MediaOpened] :=
  c2_open_broadcasts defaultSettings initState "ndi://src" defaultOpts true (by decide)

/-- The enablement rule only depends on five fields. -/
theorem samplerInv_congr (s t : PlayerState)
    (hsr : t.samplerReceiver = s.samplerReceiver) (hp : t.paused = s.paused)
    (ha : t.audioSink.isSome = s.audioSink.isSome)
    (htr : t.selectedAudioTrack = s.selectedAudioTrack) (hr : t.receiver = s.receiver)
    (h : samplerInv s) : samplerInv t := by
  unfold samplerInv at h ⊢
  rw [hsr, hp, ha, htr, hr]
  exact h

/-- C4 counterexample: (a) a closed player that binds an audio sink and selects
audio track 0 satisfies the claim's three-way rule (not paused, sink bound,
track 0) yet its sampling activity stays disabled, because no receiver is
live; (b) after reaching an enabled sampler through a successful open,
`SetRate(0.0)` sets the pause flag without recomputing enablement, leaving the
activity enabled while paused. -/
theorem c4_counterexample :
    (c4state.paused = false ∧ c4state.audioSink.isSome = true ∧
      c4state.selectedAudioTrack = 0 ∧ c4state.samplerReceiver = false) ∧
    (c4state2.paused = true ∧ c4state2.samplerReceiver = true) := by decide

/-- C4 (amended): the audio sampling activity is enabled iff the pause flag is
clear AND an audio sink is bound AND audio track 0 is selected AND a receiver
is live; this equivalence is established or preserved by every player
operation except `SetRate`, which flips the pause flag without recomputing
enablement (the rule is restored at the next recomputing operation).
`SelectTrack(Audio, 1)` fails with no state change, and
`SelectTrack(Audio, INDEX_NONE)` succeeds and disables the activity. -/
theorem c4_sampler_enablement :
    (∀ (s : PlayerState) (op : PlayerOp), samplerInv s →
      (∀ r, op ≠ PlayerOp.setRateOp r) → samplerInv (applyOp s op)) ∧
    (∀ s : PlayerState, (selectTrack s EMediaTrackType.Audio 1).2 = false ∧
      (selectTrack s EMediaTrackType.Audio 1).1 = s) ∧
    (∀ s : PlayerState, (selectTrack s EMediaTrackType.Audio INDEX_NONE).2 = true ∧
      (selectTrack s EMediaTrackType.Audio INDEX_NONE).1.samplerReceiver = false) := by
  refine ⟨?_, ?_, ?_⟩
  · intro s op hinv hnr
    cases op with
    | closeOp => exact samplerInv_close s
    | setRateOp r => exact absurd rfl (hnr r)
    | selectTrackOp t i =>
      simp only [applyOp, selectTrack]
      split
      · exact hinv
      · split
        · exact samplerInv_updateAudioSampler _
        · split
          · exact samplerInv_congr s _ rfl rfl rfl rfl rfl hinv
          · split
            · exact samplerInv_congr s _ rfl rfl rfl rfl rfl hinv
            · exact hinv
    | setAudioSinkOp k =>
      simp only [applyOp, setAudioSink]
      split
      · exact hinv
      · cases k <;> exact samplerInv_updateAudioSampler _
    | setVideoSinkOp k =>
      simp only [applyOp, setVideoSink]
      split
      · exact hinv
      · cases k <;> exact samplerInv_congr s _ rfl rfl rfl rfl rfl hinv
    | setMetadataSinkOp k =>
      simp only [applyOp, setMetadataSink]
      split
      · exact hinv
      · exact samplerInv_congr s _ rfl rfl rfl rfl rfl hinv
    | tickPlayerOp c cap =>
      simp only [applyOp, tickPlayer]
      split
      · exact hinv
      · split
        · split <;> exact samplerInv_updateAudioSampler _
        · exact hinv
    | openOp st url opts ok =>
      simp only [applyOp, openUrl]
      split
      · exact samplerInv_close s
      · split
        · exact samplerInv_congr (close s).1 _ rfl rfl rfl rfl rfl (samplerInv_close s)
        · simp [samplerInv, close, updateAudioSampler, INDEX_NONE]
    | processAudioOp f =>
      simp only [applyOp, processAudioFrame]
      cases hs : s.audioSink with
      | none =>
        simp only [hs]
        exact samplerInv_congr s _ rfl rfl (by simp [hs]) rfl rfl hinv
      | some snk =>
        simp only [hs]
        split
        · split
          · exact samplerInv_congr s _ rfl rfl (by simp [hs]) rfl rfl hinv
          · exact samplerInv_congr s _ rfl rfl (by simp [hs]) rfl rfl hinv
        · exact samplerInv_congr s _ rfl rfl (by simp [hs]) rfl rfl hinv
    | processVideoOp f =>
      simp only [applyOp, processVideoFrame]
      cases hs : s.videoSink with
      | none =>
        simp only [hs]
        exact samplerInv_congr s _ rfl rfl rfl rfl rfl hinv
      | some snk =>
        simp only [hs]
        split
        · split
          · exact samplerInv_congr s _ rfl rfl rfl rfl rfl hinv
          · exact samplerInv_congr s _ rfl rfl rfl rfl rfl hinv
        · exact samplerInv_congr s _ rfl rfl rfl rfl rfl hinv
  · intro s
    constructor
    · simp [selectTrack, INDEX_NONE]
    · simp [selectTrack, INDEX_NONE]
  · intro s
    constructor
    · simp [selectTrack]
    · simp [selectTrack, updateAudioSampler, INDEX_NONE]

/-- Witness for C4: the invariant holds initially and is preserved by `Close`;
the two track-selection facts at the initial state. -/
theorem c4_witness :
    samplerInv initState ∧ samplerInv (applyOp initState PlayerOp.closeOp) ∧
    (selectTrack initState EMediaTrackType.Audio 1).2 = false ∧
    (selectTrack initState EMediaTrackType.Audio INDEX_NONE).2 = true := by
  have h := c4_sampler_enablement
  refine ⟨by decide, ?_, ?_, ?_⟩
  · exact h.1 initState PlayerOp.closeOp (by decide) (fun r h2 => by cases h2)
  · exact (h.2.1 initState).1
  · exact (h.2.2 initState).1

/-- C5: every processed audio frame updates the cached channel count and
sample rate (sink bound or not); when a sink is bound and either the formats
already match or the (needed) initialize call succeeds, the sink's play hook
receives exactly `noSamples * noChannels * 2` bytes with the frame's original
timecode. -/
theorem c5_audio_frame (s : PlayerState) (f : AudioFrame)
    (h0 : 0 ≤ f.noSamples * f.noChannels) (h2 : f.noSamples * f.noChannels < 2 ^ 32) :
    ((processAudioFrame s f).1.lastAudioChannels = f.noChannels ∧
      (processAudioFrame s f).1.lastAudioSampleRate = f.sampleRate) ∧
    (∀ snk : AudioSinkState, s.audioSink = some snk →
      ((snk.channels = f.noChannels ∧ snk.sampleRate = f.sampleRate) ∨ snk.initOk = true) →
      (processAudioFrame s f).2.filter isAudioPlay =
        [Obs.audioPlay ((f.noSamples * f.noChannels).toNat * 2) f.timecode]) := by
  have h2x : f.noSamples * f.noChannels < (4294967296 : Int) := by
    norm_num at h2
    exact h2
  have hmod : f.noSamples * f.noChannels % (4294967296 : Int) = f.noSamples * f.noChannels :=
    Int.emod_eq_of_lt h0 h2x
  constructor
  · cases hs : s.audioSink with
    | none => simp [processAudioFrame, hs]
    | some snk =>
      simp only [processAudioFrame]
      simp only [hs]
      split
      · split
        · exact ⟨rfl, rfl⟩
        · exact ⟨rfl, rfl⟩
      · exact ⟨rfl, rfl⟩
  · intro snk hs hok
    by_cases hm : snk.channels = f.noChannels ∧ snk.sampleRate = f.sampleRate
    · simp [processAudioFrame, hs, hm.1, hm.2, isAudioPlay, hmod]
    · have hio : snk.initOk = true := by
        rcases hok with h | h
        · exact absurd h hm
        · exact h
      rcases not_and_or.mp hm with hd | hd <;>
        simp [processAudioFrame, hs, hd, hio, isAudioPlay, hmod]

/-- Witness for C5: a 4-sample 2-channel frame through a matching sink yields
one 16-byte play call carrying timecode 99. -/
theorem c5_witness :
    (processAudioFrame c5state c5frame).1.lastAudioChannels = 2 ∧
    (processAudioFrame c5state c5frame).2.filter isAudioPlay = [Obs.audioPlay 16 99] := by
  have h := c5_audio_frame c5state c5frame (by decide) (by decide)
  constructor
  · exact h.1.1.trans (by decide)
  · exact (h.2 c5sink rfl (Or.inl (by decide))).trans (by decide)

/-- C6 counterexample: with a bound video sink whose initialize hook fails,
two consecutive identical frames trigger the initialize hook twice (the failed
first call leaves the sink's reported format unchanged, so the second frame
retries), contradicting "at most once". -/
theorem c6_counterexample :
    countVideoInit ((processVideoFrame c6state c6frame).2 ++
      (processVideoFrame (processVideoFrame c6state c6frame).1 c6frame).2) = 2 ∧
    ¬ countVideoInit ((processVideoFrame c6state c6frame).2 ++
      (processVideoFrame (processVideoFrame c6state c6frame).1 c6frame).2) ≤ 1 := by decide

/-- C6 (amended): for a bound video sink whose initialize hook succeeds, two
consecutive frames with identical dimensions trigger at most one initialize
call, and none on the second frame; a frame whose format or dimensions differ
from the sink's reported ones triggers exactly one initialize call with the
newly computed dimensions, and when that call fails the frame is dropped with
no buffer-update and no display call; a frame matching the sink's reported
format triggers no initialize call. -/
theorem c6_video_format_change (s : PlayerState) (f : VideoFrame) (snk : VideoSinkState)
    (hsink : s.videoSink = some snk) :
    (snk.initOk = true →
      countVideoInit (processVideoFrame s f).2 ≤ 1 ∧
      countVideoInit (processVideoFrame (processVideoFrame s f).1 f).2 = 0) ∧
    ((snk.fmt ≠ s.videoSinkFormat ∨ snk.dim ≠ (f.xres, f.yres)) →
      (processVideoFrame s f).2.filter isVideoInit =
        [Obs.videoInit (f.xres, f.yres) (f.lineStride / 4, f.yres) s.videoSinkFormat] ∧
      (snk.initOk = false →
        countVideoUpdate (processVideoFrame s f).2 = 0 ∧
        countVideoDisplay (processVideoFrame s f).2 = 0)) ∧
    (snk.fmt = s.videoSinkFormat ∧ snk.dim = (f.xres, f.yres) →
      countVideoInit (processVideoFrame s f).2 = 0) := by
  by_cases hm : snk.fmt = s.videoSinkFormat ∧ snk.dim = (f.xres, f.yres)
  · refine ⟨fun _ => ⟨?_, ?_⟩, fun hc => ?_, fun _ => ?_⟩
    · simp [processVideoFrame, hsink, hm.1, hm.2, countVideoInit, isVideoInit]
    · simp [processVideoFrame, hsink, hm.1, hm.2, countVideoInit, isVideoInit]
    · rcases hc with hc | hc
      · exact absurd hm.1 hc
      · exact absurd hm.2 hc
    · simp [processVideoFrame, hsink, hm.1, hm.2, countVideoInit, isVideoInit]
  · rcases not_and_or.mp hm with hd | hd <;>
      refine ⟨fun hio => ⟨?_, ?_⟩, fun _ => ⟨?_, ?_⟩, fun hc => absurd hc hm⟩
    · simp [processVideoFrame, hsink, hd, hio, countVideoInit, isVideoInit]
    · simp [processVideoFrame, hsink, hd, hio, countVideoInit, isVideoInit]
    · cases hio3 : snk.initOk <;> simp [processVideoFrame, hsink, hd, hio3, isVideoInit]
    · intro hio4
      simp [processVideoFrame, hsink, hd, hio4, countVideoUpdate, countVideoDisplay,
        isVideoUpdate, isVideoDisplay]
    · simp [processVideoFrame, hsink, hd, hio, countVideoInit, isVideoInit]
    · simp [processVideoFrame, hsink, hd, hio, countVideoInit, isVideoInit]
    · cases hio3 : snk.initOk <;> simp [processVideoFrame, hsink, hd, hio3, isVideoInit]
    · intro hio4
      simp [processVideoFrame, hsink, hd, hio4, countVideoUpdate, countVideoDisplay,
        isVideoUpdate, isVideoDisplay]

/-- Witness for C6: a healthy sink re-initializes once for the 100x50 frame
and not at all on the identical second frame. -/
theorem c6_witness :
    countVideoInit (processVideoFrame (processVideoFrame c6wstate c6frame).1 c6frame).2 = 0 ∧
    (processVideoFrame c6wstate c6frame).2.filter isVideoInit =
      [Obs.videoInit (100, 50) (100, 50) EMediaTextureSinkFormat.CharUYVY] := by
  have h := c6_video_format_change c6wstate c6frame c6wsink rfl
  refine ⟨(h.1 rfl).2, ?_⟩
  exact ((h.2.1 (Or.inr (by decide))).1).trans (by decide)

/-- C7 counterexample: replacing a bound video sink records the new binding
*before* invoking its initialize hook — the trace is shutdown, record,
initialize, so the initialize call does not precede the binding. -/
theorem c7_counterexample :
    (setVideoSink c7state (some c7new)).2 =
      [Obs.videoShutdown, Obs.recordVideoSink (some 4),
        Obs.videoInit (0, 0) (0, 0) EMediaTextureSinkFormat.CharUYVY] ∧
    ¬ (setVideoSink c7state (some c7new)).2.findIdx isVideoInit <
        (setVideoSink c7state (some c7new)).2.findIdx isRecVideo := by decide

/-- C7 (amended): for each sink kind, binding the currently bound sink is a
no-op; otherwise the previous sink's shutdown hook runs iff one was bound, and
a newly supplied sink's initialize hook is invoked exactly once with the
current FormatCache values for that kind — before the binding is recorded for
the audio and metadata kinds, but *after* it for the video kind; audio
rebinding additionally recomputes the sampler enablement. -/
theorem c7_sink_binding (s : PlayerState) (ka : Option AudioSinkState)
    (kv : Option VideoSinkState) (km : Option MetaSinkState) :
    (sinkIdA ka = sinkIdA s.audioSink → setAudioSink s ka = (s, [])) ∧
    (sinkIdV kv = sinkIdV s.videoSink → setVideoSink s kv = (s, [])) ∧
    (sinkIdM km = sinkIdM s.metaSink → setMetadataSink s km = (s, [])) ∧
    (sinkIdA ka ≠ sinkIdA s.audioSink →
      ((Obs.audioShutdown ∈ (setAudioSink s ka).2) ↔ s.audioSink.isSome = true) ∧
      (∀ k : AudioSinkState, ka = some k →
        (setAudioSink s ka).2.filter isAudioInit =
          [Obs.audioInit s.lastAudioChannels s.lastAudioSampleRate] ∧
        (setAudioSink s ka).2.findIdx isAudioInit <
          (setAudioSink s ka).2.findIdx isRecAudio) ∧
      samplerInv (setAudioSink s ka).1) ∧
    (sinkIdM km ≠ sinkIdM s.metaSink →
      ((Obs.metaShutdown ∈ (setMetadataSink s km).2) ↔ s.metaSink.isSome = true) ∧
      (∀ k : MetaSinkState, km = some k →
        (setMetadataSink s km).2.filter isMetaInit = [Obs.metaInit] ∧
        (setMetadataSink s km).2.findIdx isMetaInit <
          (setMetadataSink s km).2.findIdx isRecMeta)) ∧
    (sinkIdV kv ≠ sinkIdV s.videoSink →
      ((Obs.videoShutdown ∈ (setVideoSink s kv).2) ↔ s.videoSink.isSome = true) ∧
      (∀ k : VideoSinkState, kv = some k →
        (setVideoSink s kv).2.filter isVideoInit =
          [Obs.videoInit s.lastVideoDim s.lastBufferDim s.videoSinkFormat] ∧
        (setVideoSink s kv).2.findIdx isRecVideo <
          (setVideoSink s kv).2.findIdx isVideoInit)) := by
  refine ⟨?_, ?_, ?_, ?_, ?_, ?_⟩
  · intro h
    simp [setAudioSink, h]
  · intro h
    simp [setVideoSink, h]
  · intro h
    simp [setMetadataSink, h]
  · intro h
    refine ⟨?_, ?_, ?_⟩
    · cases hs : s.audioSink <;> rw [hs] at h <;> cases ka <;>
        simp_all [setAudioSink, isAudioInit, isRecAudio, sinkIdA, List.findIdx_cons]
    · intro k hk
      subst hk
      cases hs : s.audioSink <;> rw [hs] at h <;>
        simp_all [setAudioSink, isAudioInit, isRecAudio, sinkIdA, List.findIdx_cons]
    · simp only [setAudioSink]
      rw [if_neg h]
      cases ka <;> exact samplerInv_updateAudioSampler _
  · intro h
    constructor
    · cases hs : s.metaSink <;> rw [hs] at h <;> cases km <;>
        simp_all [setMetadataSink, isMetaInit, isRecMeta, sinkIdM, List.findIdx_cons]
    · intro k hk
      subst hk
      cases hs : s.metaSink <;> rw [hs] at h <;>
        simp_all [setMetadataSink, isMetaInit, isRecMeta, sinkIdM, List.findIdx_cons]
  · intro h
    constructor
    · cases hs : s.videoSink <;> rw [hs] at h <;> cases kv <;>
        simp_all [setVideoSink, isVideoInit, isRecVideo, sinkIdV, List.findIdx_cons]
    · intro k hk
      subst hk
      cases hs : s.videoSink <;> rw [hs] at h <;>
        simp_all [setVideoSink, isVideoInit, isRecVideo, sinkIdV, List.findIdx_cons]

/-- Witness for C7: rebinding the same audio sink is a no-op, and a fresh
metadata sink gets exactly one initialize call. -/
theorem c7_witness :
    setAudioSink { initState with audioSink := some exAudioSink } (some exAudioSink) =
      ({ initState with audioSink := some exAudioSink }, []) ∧
    (setMetadataSink initState (some c7meta)).2.filter isMetaInit = [Obs.metaInit] := by
  have h := c7_sink_binding { initState with audioSink := some exAudioSink }
    (some exAudioSink) none (some c7meta)
  refine ⟨h.1 rfl, ?_⟩
  have h2 := h.2.2.2.2.1 (by decide)
  exact (h2.2 c7meta rfl).1

/-- Witness for C10 with and without a receiver. -/
theorem c10_witness :
    getSelectedTrack { initState with receiver := true } EMediaTrackType.Audio = 0 ∧
    getSelectedTrack initState EMediaTrackType.Video = INDEX_NONE := by
  constructor
  · exact (c10_get_selected_track { initState with receiver := true }
      EMediaTrackType.Audio).2.1 (by decide) (Or.inl rfl)
  · exact (c10_get_selected_track initState EMediaTrackType.Video).1 (by decide)

end NdiMedia
